import Mathlib

/-
Verification development for the meilisearch-mcp tool-dispatch gateway.

The embedding models, from the Python source:
  - a JSON value type standing for the loosely-typed values that flow through
    argument bags and parsed SSE payloads, together with Python semantics for
    membership, subscripting, attribute-style dict lookup, and truthiness;
  - the SSE streaming decoder loop of chat.py, chat_completion_stream
    (lines 65-81), as a pure function from the list of received lines to the
    list of yielded fragments plus an optional uncaught exception;
  - the dispatch gateway of server.py, handle_call_tool (lines 536-919), as a
    pure function parameterized by a backend oracle (the MeilisearchClient,
    whose module is out of scope; each of its methods is a field returning
    either a result, already rendered to the string the branch interpolates,
    or an exception message).

Exception message strings reproduce the CPython messages for the TypeError,
KeyError and AttributeError cases the gateway can hit; no claim depends on
their exact wording, only on the fact that an exception carries a message.
JSON numerals are modelled as integers; non-integer numerals are outside the
model (the parser rejects them), which no claim exercises.
-/

/-- Loosely-typed JSON values, as produced by json.loads and as carried in
tool argument bags. Object fields keep textual order; lookup takes the last
binding, matching the last-wins behaviour of json.loads on duplicate keys. -/
inductive Json where
  | null
  | bool (b : Bool)
  | num (n : Int)
  | str (s : String)
  | arr (xs : List Json)
  | obj (fields : List (String × Json))

/-- Last-wins lookup in an object field list, the dict lookup semantics. -/
def objGet (fs : List (String × Json)) (k : String) : Option Json :=
  fs.foldl (fun acc p => if p.1 == k then some p.2 else acc) none

/-- Python truthiness of a JSON value. -/
def truthy : Json → Bool
  | .null => false
  | .bool b => b
  | .num n => n != 0
  | .str s => s != ""
  | .arr xs => !xs.isEmpty
  | .obj fs => !fs.isEmpty

/-- Boolean test: the first list is an initial segment of the second. -/
def listPrefixB : List Char → List Char → Bool
  | [], _ => true
  | _ :: _, [] => false
  | a :: as, b :: bs => a == b && listPrefixB as bs

/-- Boolean test: the first list occurs contiguously inside the second. -/
def listSubstrB (p : List Char) : List Char → Bool
  | [] => listPrefixB p []
  | c :: cs => listPrefixB p (c :: cs) || listSubstrB p cs

/-- Boolean substring test on strings, the Python `in` test on two strings. -/
def substrB (p s : String) : Bool :=
  listSubstrB p.toList s.toList

/-- The opening brace character. -/
def lbrace : Char := Char.ofNat 123

/-- The closing brace character. -/
def rbrace : Char := Char.ofNat 125

/-- Drop leading JSON whitespace. -/
def skipWs : List Char → List Char
  | c :: cs => if c == ' ' || c == '\t' || c == '\n' || c == '\r' then skipWs cs else c :: cs
  | [] => []

/-- Consume an expected literal character sequence. -/
def expectChars : List Char → List Char → Option (List Char)
  | [], cs => some cs
  | e :: es, c :: cs => if e == c then expectChars es cs else none
  | _ :: _, [] => none

/-- Parse the body of a JSON string literal after the opening quote, up to and
including the closing quote, handling the common escapes. -/
def parseStrChars : List Char → Option (String × List Char)
  | [] => none
  | c :: cs =>
    if c == '"' then some ("", cs)
    else if c == '\\' then
      match cs with
      | [] => none
      | e :: cs2 =>
        let esc : Option Char :=
          if e == '"' then some '"'
          else if e == '\\' then some '\\'
          else if e == '/' then some '/'
          else if e == 'n' then some '\n'
          else if e == 't' then some '\t'
          else if e == 'r' then some '\r'
          else none
        match esc with
        | none => none
        | some ch =>
          match parseStrChars cs2 with
          | none => none
          | some r => some (String.singleton ch ++ r.1, r.2)
    else
      match parseStrChars cs with
      | none => none
      | some r => some (String.singleton c ++ r.1, r.2)

/-- Split off a maximal run of decimal digits. -/
def takeDigits : List Char → List Char × List Char
  | c :: cs =>
    if c.isDigit then
      let r := takeDigits cs
      (c :: r.1, r.2)
    else ([], c :: cs)
  | [] => ([], [])

/-- Numeric value of a digit run. -/
def digitsToNat (ds : List Char) : Nat :=
  ds.foldl (fun a c => a * 10 + (c.toNat - 48)) 0

mutual

/-- Fuel-bounded recursive-descent parser for one JSON value. -/
def parseVal : Nat → List Char → Option (Json × List Char)
  | 0, _ => none
  | fuel + 1, cs =>
    match skipWs cs with
    | [] => none
    | c :: rest =>
      if c == 'n' then
        match expectChars ['u', 'l', 'l'] rest with
        | some r => some (Json.null, r)
        | none => none
      else if c == 't' then
        match expectChars ['r', 'u', 'e'] rest with
        | some r => some (Json.bool true, r)
        | none => none
      else if c == 'f' then
        match expectChars ['a', 'l', 's', 'e'] rest with
        | some r => some (Json.bool false, r)
        | none => none
      else if c == '"' then
        match parseStrChars rest with
        | some r => some (Json.str r.1, r.2)
        | none => none
      else if c == '[' then
        match skipWs rest with
        | ']' :: rest2 => some (Json.arr [], rest2)
        | cs2 =>
          match parseArrItems fuel cs2 with
          | some r => some (Json.arr r.1, r.2)
          | none => none
      else if c == lbrace then
        match skipWs rest with
        | d :: rest2 =>
          if d == rbrace then some (Json.obj [], rest2)
          else
            match parseObjFields fuel (d :: rest2) with
            | some r => some (Json.obj r.1, r.2)
            | none => none
        | [] => none
      else if c == '-' then
        match takeDigits rest with
        | ([], _) => none
        | (ds, rest2) =>
          match rest2 with
          | c2 :: _ =>
            if c2 == '.' || c2 == 'e' || c2 == 'E' then none
            else some (Json.num (-(digitsToNat ds : Int)), rest2)
          | [] => some (Json.num (-(digitsToNat ds : Int)), [])
      else if c.isDigit then
        match takeDigits (c :: rest) with
        | (ds, rest2) =>
          match rest2 with
          | c2 :: _ =>
            if c2 == '.' || c2 == 'e' || c2 == 'E' then none
            else some (Json.num (digitsToNat ds), rest2)
          | [] => some (Json.num (digitsToNat ds), [])
      else none

/-- Parse one or more comma-separated array items, then the closing bracket. -/
def parseArrItems : Nat → List Char → Option (List Json × List Char)
  | 0, _ => none
  | fuel + 1, cs =>
    match parseVal fuel cs with
    | none => none
    | some (v, rest) =>
      match skipWs rest with
      | ',' :: rest2 =>
        match parseArrItems fuel rest2 with
        | some r => some (v :: r.1, r.2)
        | none => none
      | ']' :: rest2 => some ([v], rest2)
      | _ => none

/-- Parse one or more comma-separated object fields, then the closing brace. -/
def parseObjFields : Nat → List Char → Option (List (String × Json) × List Char)
  | 0, _ => none
  | fuel + 1, cs =>
    match skipWs cs with
    | '"' :: rest =>
      match parseStrChars rest with
      | none => none
      | some (k, rest2) =>
        match skipWs rest2 with
        | ':' :: rest3 =>
          match parseVal fuel rest3 with
          | none => none
          | some (v, rest4) =>
            match skipWs rest4 with
            | ',' :: rest5 =>
              match parseObjFields fuel rest5 with
              | some r => some ((k, v) :: r.1, r.2)
              | none => none
            | d :: rest5 =>
              if d == rbrace then some ([(k, v)], rest5) else none
            | [] => none
        | _ => none
    | _ => none

end

/-- The model of json.loads: parse a complete JSON document, rejecting
trailing non-whitespace, returning none on any parse failure (the
JSONDecodeError case). -/
def parseJson (s : String) : Option Json :=
  match parseVal (s.length + 1) s.toList with
  | some (v, rest) => if skipWs rest == [] then some v else none
  | none => none

/-- Python membership test on a JSON value, the expression testing whether the
string choices occurs in the parsed chunk: key membership on a dict, element
membership on a list, substring on a string, a TypeError otherwise. -/
def pyContains (j : Json) (k : String) : Except String Bool :=
  match j with
  | .obj fs => .ok (objGet fs k).isSome
  | .arr xs => .ok (xs.any fun x => match x with | .str s => s == k | _ => false)
  | .str s => .ok (substrB k s)
  | .num _ => .error "argument of type \x27int\x27 is not iterable"
  | .bool _ => .error "argument of type \x27bool\x27 is not iterable"
  | .null => .error "argument of type \x27NoneType\x27 is not iterable"

/-- Python string-keyed subscripting of a JSON value: dict lookup raising
KeyError when absent, a TypeError on lists, strings and other values. -/
def pySubscript (j : Json) (k : String) : Except String Json :=
  match j with
  | .obj fs =>
    match objGet fs k with
    | some v => .ok v
    | none => .error ("\x27" ++ k ++ "\x27")
  | .arr _ => .error "list indices must be integers or slices, not str"
  | .str _ => .error "string indices must be integers"
  | .num _ => .error "\x27int\x27 object is not subscriptable"
  | .bool _ => .error "\x27bool\x27 object is not subscriptable"
  | .null => .error "\x27NoneType\x27 object is not subscriptable"

/-- Python subscripting by the integer literal zero: first element of a list,
first character of a string, KeyError on a string-keyed dict, a TypeError on
the remaining values. -/
def pyIndexZero (j : Json) : Except String Json :=
  match j with
  | .arr (x :: _) => .ok x
  | .arr [] => .error "list index out of range"
  | .str s =>
    match s.toList with
    | c :: _ => .ok (Json.str (String.singleton c))
    | [] => .error "string index out of range"
  | .obj _ => .error "0"
  | .num _ => .error "\x27int\x27 object is not subscriptable"
  | .bool _ => .error "\x27bool\x27 object is not subscriptable"
  | .null => .error "\x27NoneType\x27 object is not subscriptable"

/-- Python dict get with a default: defined on dicts only, an AttributeError
on every other value. -/
def pyDictGet (j : Json) (k : String) (d : Json) : Except String Json :=
  match j with
  | .obj fs =>
    match objGet fs k with
    | some v => .ok v
    | none => .ok d
  | .arr _ => .error "\x27list\x27 object has no attribute \x27get\x27"
  | .str _ => .error "\x27str\x27 object has no attribute \x27get\x27"
  | .num _ => .error "\x27int\x27 object has no attribute \x27get\x27"
  | .bool _ => .error "\x27bool\x27 object has no attribute \x27get\x27"
  | .null => .error "\x27NoneType\x27 object has no attribute \x27get\x27"

/-- Outcome of processing one successfully parsed SSE payload: yield a
fragment, yield nothing, or raise an uncaught exception. -/
inductive StepOut where
  | skip
  | yieldFrag (v : Json)
  | raiseExc (msg : String)

/-- The body of the decoder loop of chat_completion_stream, chat.py lines
72-79, applied to one successfully parsed chunk: test membership of choices,
subscript it, test truthiness, take element zero, read delta then content via
dict get with defaults, and yield the content when truthy. Any TypeError,
KeyError or AttributeError on the way escapes the loop, since only
JSONDecodeError is caught. -/
def processChunk (chunk : Json) : StepOut :=
  match pyContains chunk "choices" with
  | .error m => .raiseExc m
  | .ok false => .skip
  | .ok true =>
    match pySubscript chunk "choices" with
    | .error m => .raiseExc m
    | .ok choices =>
      if truthy choices then
        match pyIndexZero choices with
        | .error m => .raiseExc m
        | .ok c0 =>
          match pyDictGet c0 "delta" (Json.obj []) with
          | .error m => .raiseExc m
          | .ok delta =>
            match pyDictGet delta "content" (Json.str "") with
            | .error m => .raiseExc m
            | .ok content => if truthy content then .yieldFrag content else .skip
      else .skip

/-- Result of running the streaming decoder to completion: the fragments it
yielded in order, and the message of the exception that escaped it, if any. -/
structure StreamResult where
  fragments : List Json
  exc : Option String

/-- The relevance test of chat.py line 66: a line contributes only when it
starts with the data prefix, and then its payload is the rest of the line. -/
def dataPayload (l : String) : Option String :=
  if listPrefixB "data: ".toList l.toList then some (String.mk (l.toList.drop 6)) else none

/-- The SSE decoding loop of chat_completion_stream, chat.py lines 65-81, as
a function of the received lines: skip non-data lines, stop at the sentinel
without yielding it, skip payloads that fail to parse, and otherwise process
the parsed chunk, an uncaught exception aborting the rest of the stream. -/
def chat_completion_stream : List String → StreamResult
  | [] => ⟨[], none⟩
  | l :: ls =>
    match dataPayload l with
    | none => chat_completion_stream ls
    | some data =>
      if data = "[DONE]" then ⟨[], none⟩
      else
        match parseJson data with
        | none => chat_completion_stream ls
        | some chunk =>
          match processChunk chunk with
          | .skip => chat_completion_stream ls
          | .yieldFrag v =>
            let r := chat_completion_stream ls
            ⟨v :: r.fragments, r.exc⟩
          | .raiseExc m => ⟨[], some m⟩

/-- The joined text of the yielded fragments, the join on the empty string
performed by the chat-completion branch of the gateway: defined when every
fragment is a string, as join raises otherwise. -/
def joinedText (rs : List Json) : Option String :=
  rs.foldr
    (fun j acc =>
      match j, acc with
      | .str s, some t => some (s ++ t)
      | _, _ => none)
    (some "")

/-- Spec-side reading of the per-chunk extraction: the value at the nested
field path choices, index zero, delta, content, kept only when present and
non-empty in the Python truthiness sense. -/
def contentAt (chunk : Json) : Option Json :=
  match chunk with
  | .obj fs =>
    match objGet fs "choices" with
    | some (.arr (c0 :: _)) =>
      match c0 with
      | .obj d =>
        match objGet d "delta" with
        | some (.obj dd) =>
          match objGet dd "content" with
          | some v => if truthy v then some v else none
          | none => none
        | _ => none
      | _ => none
    | _ => none
  | _ => none

/-- Spec-side reading of the whole decode: the non-empty content payload
values of the data lines, in input order, cut off at the first line whose
payload is the sentinel, which is not itself included. -/
def specFragments : List String → List Json
  | [] => []
  | l :: ls =>
    match dataPayload l with
    | none => specFragments ls
    | some d =>
      if d = "[DONE]" then []
      else
        match parseJson d with
        | none => specFragments ls
        | some chunk =>
          match contentAt chunk with
          | some v => v :: specFragments ls
          | none => specFragments ls

/-- Structural conformance of a parsed payload, under which the decoder body
cannot raise: the chunk is a dict, and when its choices entry is present and
truthy it is a non-empty list headed by a dict whose delta entry, when
present, is itself a dict. -/
def wellFormedChunk : Json → Bool
  | .obj fs =>
    match objGet fs "choices" with
    | none => true
    | some v =>
      !truthy v ||
      (match v with
       | .arr (c0 :: _) =>
         (match c0 with
          | .obj d =>
            (match objGet d "delta" with
             | none => true
             | some (.obj _) => true
             | some _ => false)
          | _ => false)
       | _ => false)
  | .arr xs => !(xs.any fun x => match x with | .str s => s == "choices" | _ => false)
  | .str s => !substrB "choices" s
  | _ => false

/-- Structural conformance of one received line: non-data lines, the
sentinel, and unparseable payloads are always safe; parsed payloads must be
structurally conformant. -/
def lineSafe (l : String) : Bool :=
  match dataPayload l with
  | none => true
  | some d =>
    if d = "[DONE]" then true
    else
      match parseJson d with
      | none => true
      | some c => wellFormedChunk c

mutual

/-- Python repr of a JSON value, used when a container is interpolated into
an f-string; string quoting edge cases are approximated with plain quotes. -/
def pyRepr : Json → String
  | .null => "None"
  | .bool true => "True"
  | .bool false => "False"
  | .num n => toString n
  | .str s => "\x27" ++ s ++ "\x27"
  | .arr xs => "[" ++ pyReprArr xs ++ "]"
  | .obj fs => String.singleton lbrace ++ pyReprFields fs ++ String.singleton rbrace

/-- Comma-separated reprs of list elements. -/
def pyReprArr : List Json → String
  | [] => ""
  | [x] => pyRepr x
  | x :: xs => pyRepr x ++ ", " ++ pyReprArr xs

/-- Comma-separated reprs of dict entries. -/
def pyReprFields : List (String × Json) → String
  | [] => ""
  | [(k, v)] => "\x27" ++ k ++ "\x27: " ++ pyRepr v
  | (k, v) :: fs => "\x27" ++ k ++ "\x27: " ++ pyRepr v ++ ", " ++ pyReprFields fs

end

/-- Python str of a JSON value, the f-string interpolation: a string renders
as its own characters, other values as their repr. -/
def pyStr : Json → String
  | .str s => s
  | j => pyRepr j

/-- One content block of a response envelope; every block the gateway builds
has the text kind, so only the text is modelled. -/
structure TextContent where
  text : String
deriving DecidableEq

/-- The envelope returned for one invocation: an ordered list of text
blocks. -/
abbrev Envelope := List TextContent

/-- A tool argument bag: the decoded JSON object the protocol delivers, or
absent. Keys are unique as in a Python dict. -/
abbrev ArgBag := List (String × Json)

/-- Python dict get with a default on an argument bag. -/
def bagGetD (bag : ArgBag) (k : String) (d : Json) : Json :=
  match objGet bag k with
  | some v => v
  | none => d

/-- Subscript access on an optional argument bag: a TypeError when the bag is
absent, a KeyError when the key is missing. -/
def argsSub (args : Option ArgBag) (k : String) : Except String Json :=
  match args with
  | none => .error "\x27NoneType\x27 object is not subscriptable"
  | some bag =>
    match objGet bag k with
    | some v => .ok v
    | none => .error ("\x27" ++ k ++ "\x27")

/-- Dict get without a default on an optional argument bag: an AttributeError
when the bag is absent. -/
def argsGet (args : Option ArgBag) (k : String) : Except String (Option Json) :=
  match args with
  | none => .error "\x27NoneType\x27 object has no attribute \x27get\x27"
  | some bag => .ok (objGet bag k)

/-- Dict get with a default on an optional argument bag: an AttributeError
when the bag is absent. -/
def argsGetD (args : Option ArgBag) (k : String) (d : Json) : Except String Json :=
  match args with
  | none => .error "\x27NoneType\x27 object has no attribute \x27get\x27"
  | some bag => .ok (bagGetD bag k d)

/-- The mutable state of MeilisearchMCPServer, server.py lines 34-51: the
stored base URL and optional credential, plus the constructor arguments the
current MeilisearchClient was built from. The fields hold JSON values since
Python retypes them freely; the constructor installs strings. The client
module itself is out of scope and is consumed through the Backend oracle. -/
structure MeilisearchMCPServer where
  url : Json
  api_key : Option Json
  client_url : Json
  client_api_key : Option Json

/-- The connection-settings update of server.py lines 53-63: overwrite each
stored field only when the corresponding argument is present and truthy, then
rebuild the client from the post-update state. -/
def update_connection (st : MeilisearchMCPServer) (url : Option Json)
    (api_key : Option Json) : MeilisearchMCPServer :=
  let st1 :=
    match url with
    | some u => if truthy u then { st with url := u } else st
    | none => st
  let st2 :=
    match api_key with
    | some k => if truthy k then { st1 with api_key := some k } else st1
    | none => st1
  { st2 with client_url := st2.url, client_api_key := st2.api_key }

/-- The backend oracle standing for the MeilisearchClient instance: one field
per method the gateway calls, each returning either the exception message the
call raised or its result, already rendered to the string the branch
interpolates into its reply text. The health check keeps its boolean result
since the branch tests it; the chat stream keeps its fragment list since the
branch joins it. -/
structure Backend where
  create_index : Json → Option Json → Except String String
  get_indexes : Except String String
  delete_index : Json → Except String String
  get_documents : Json → Json → Json → Except String String
  add_documents : Json → Json → Option Json → Except String String
  health_check : Except String Bool
  get_version : Except String String
  get_stats : Except String String
  get_settings : Json → Except String String
  update_settings : Json → Json → Except String String
  search : Json → Option Json → Option Json → Option Json → Option Json →
    Option Json → Except String String
  get_task : Json → Except String String
  get_tasks : List (String × Json) → Except String String
  cancel_tasks : Option ArgBag → Except String String
  get_keys : Option ArgBag → Except String String
  create_key : Option Json → Json → Json → Option Json → Except String String
  delete_key : Json → Except String String
  get_health_status : Except String String
  get_index_metrics : Json → Except String String
  get_system_information : Except String String
  chat_completion_stream : Json → Option Json → Option Json → Option Json →
    Option Json → Option Json → Except String (List String)
  chat_completion : Json → Option Json → Option Json → Option Json →
    Option Json → Option Json → Except String String
  create_chat_workspace : Json → Json → Option Json → Option Json →
    Option Json → Option Json → Option Json → Except String String
  update_chat_workspace : Json → Option Json → Option Json → Option Json →
    Option Json → Option Json → Option Json → Except String String
  list_chat_workspaces : Option Json → Option Json → Except String String
  get_chat_workspace : Json → Except String String
  delete_chat_workspace : Json → Except String String

/-- The fixed allow-list of task-query filter keys, server.py lines 689-705. -/
def valid_params : List String :=
  ["limit", "from", "reverse", "batchUids", "uids", "canceledBy", "types",
   "statuses", "indexUids", "afterEnqueuedAt", "beforeEnqueuedAt",
   "afterStartedAt", "beforeStartedAt", "afterFinishedAt", "beforeFinishedAt"]

/-- The filtered task arguments of server.py lines 706-710: when the bag is
present and truthy, keep exactly the entries whose key lies in the
allow-list; an absent or empty bag becomes the empty bag. -/
def filtered_args (args : Option ArgBag) : List (String × Json) :=
  match args with
  | some bag =>
    if bag.isEmpty then []
    else bag.filter fun p => valid_params.contains p.1
  | none => []

/-- Truthiness of an optional value, absent being falsy. -/
def optTruthy : Option Json → Bool
  | none => false
  | some j => truthy j

/-- The credential display of the connection-settings reply, server.py line
545: a fixed eight-asterisk mask when a credential is set, the fixed phrase
otherwise. -/
def maskedKey (k : Option Json) : String :=
  if optTruthy k then "********" else "Not set"

/-- The body of the try block of handle_call_tool, server.py lines 541-910:
the name-directed branch chain, each branch reading its arguments and calling
its bound backend operation, ending in the unknown-tool ValueError. An error
value is an exception escaping the branch; an ok value carries the
post-invocation server state and the reply envelope. -/
def dispatchTool (b : Backend) (st : MeilisearchMCPServer) (name : String)
    (arguments : Option ArgBag) : Except String (MeilisearchMCPServer × Envelope) :=
  if name = "get-connection-settings" then
    .ok (st, [⟨"Current connection settings:\nURL: " ++ pyStr st.url ++
      "\nAPI Key: " ++ maskedKey st.api_key⟩])
  else if name = "update-connection-settings" then do
    let u ← argsGet arguments "url"
    let k ← argsGet arguments "api_key"
    let st2 := update_connection st u k
    .ok (st2, [⟨"Successfully updated connection settings to URL: " ++ pyStr st2.url⟩])
  else if name = "create-index" then do
    let uid ← argsSub arguments "uid"
    let pk ← argsGet arguments "primaryKey"
    let r ← b.create_index uid pk
    .ok (st, [⟨"Created index: " ++ r⟩])
  else if name = "list-indexes" then do
    let r ← b.get_indexes
    .ok (st, [⟨"Indexes:\n" ++ r⟩])
  else if name = "delete-index" then do
    let uid ← argsSub arguments "uid"
    let _ ← b.delete_index uid
    .ok (st, [⟨"Successfully deleted index: " ++ pyStr uid⟩])
  else if name = "get-documents" then do
    let offset ← argsGetD arguments "offset" (Json.num 0)
    let limit ← argsGetD arguments "limit" (Json.num 20)
    let uid ← argsSub arguments "indexUid"
    let r ← b.get_documents uid offset limit
    .ok (st, [⟨"Documents:\n" ++ r⟩])
  else if name = "add-documents" then do
    let uid ← argsSub arguments "indexUid"
    let docs ← argsSub arguments "documents"
    let pk ← argsGet arguments "primaryKey"
    let r ← b.add_documents uid docs pk
    .ok (st, [⟨"Added documents: " ++ r⟩])
  else if name = "health-check" then do
    let h ← b.health_check
    .ok (st, [⟨"Meilisearch is " ++ (if h then "available" else "unavailable")⟩])
  else if name = "get-version" then do
    let r ← b.get_version
    .ok (st, [⟨"Version info: " ++ r⟩])
  else if name = "get-stats" then do
    let r ← b.get_stats
    .ok (st, [⟨"Database stats: " ++ r⟩])
  else if name = "get-settings" then do
    let uid ← argsSub arguments "indexUid"
    let r ← b.get_settings uid
    .ok (st, [⟨"Current settings: " ++ r⟩])
  else if name = "update-settings" then do
    let uid ← argsSub arguments "indexUid"
    let settings ← argsSub arguments "settings"
    let r ← b.update_settings uid settings
    .ok (st, [⟨"Settings updated: " ++ r⟩])
  else if name = "search" then do
    let q ← argsSub arguments "query"
    let idx ← argsGet arguments "indexUid"
    let lim ← argsGet arguments "limit"
    let off ← argsGet arguments "offset"
    let fil ← argsGet arguments "filter"
    let srt ← argsGet arguments "sort"
    let r ← b.search q idx lim off fil srt
    .ok (st, [⟨"Search results for \x27" ++ pyStr q ++ "\x27:\n" ++ r⟩])
  else if name = "get-task" then do
    let t ← argsSub arguments "taskUid"
    let r ← b.get_task t
    .ok (st, [⟨"Task information: " ++ r⟩])
  else if name = "get-tasks" then do
    let r ← b.get_tasks (filtered_args arguments)
    .ok (st, [⟨"Tasks: " ++ r⟩])
  else if name = "cancel-tasks" then do
    let r ← b.cancel_tasks arguments
    .ok (st, [⟨"Tasks cancelled: " ++ r⟩])
  else if name = "get-keys" then do
    let r ← b.get_keys arguments
    .ok (st, [⟨"API keys: " ++ r⟩])
  else if name = "create-key" then do
    let desc ← argsGet arguments "description"
    let acts ← argsSub arguments "actions"
    let idxs ← argsSub arguments "indexes"
    let exp ← argsGet arguments "expiresAt"
    let r ← b.create_key desc acts idxs exp
    .ok (st, [⟨"Created API key: " ++ r⟩])
  else if name = "delete-key" then do
    let k ← argsSub arguments "key"
    let _ ← b.delete_key k
    .ok (st, [⟨"Successfully deleted API key: " ++ pyStr k⟩])
  else if name = "get-health-status" then do
    let r ← b.get_health_status
    .ok (st, [⟨"Health status: " ++ r⟩])
  else if name = "get-index-metrics" then do
    let uid ← argsSub arguments "indexUid"
    let r ← b.get_index_metrics uid
    .ok (st, [⟨"Index metrics: " ++ r⟩])
  else if name = "get-system-info" then do
    let r ← b.get_system_information
    .ok (st, [⟨"System information: " ++ r⟩])
  else if name = "chat-completion" then do
    let stream ← argsGetD arguments "stream" (Json.bool true)
    if truthy stream then do
      let q ← argsSub arguments "query"
      let model ← argsGet arguments "model"
      let temp ← argsGet arguments "temperature"
      let mt ← argsGet arguments "maxTokens"
      let idx ← argsGet arguments "indexUids"
      let ws ← argsGet arguments "workspaceUid"
      let chunks ← b.chat_completion_stream q model temp mt idx ws
      .ok (st, [⟨String.join chunks⟩])
    else do
      let q ← argsSub arguments "query"
      let model ← argsGet arguments "model"
      let temp ← argsGet arguments "temperature"
      let mt ← argsGet arguments "maxTokens"
      let idx ← argsGet arguments "indexUids"
      let ws ← argsGet arguments "workspaceUid"
      let r ← b.chat_completion q model temp mt idx ws
      .ok (st, [⟨r⟩])
  else if name = "create-chat-workspace" then do
    let uid ← argsSub arguments "uid"
    let nm ← argsSub arguments "name"
    let desc ← argsGet arguments "description"
    let model ← argsGet arguments "model"
    let temp ← argsGet arguments "temperature"
    let mt ← argsGet arguments "maxTokens"
    let idx ← argsGet arguments "indexUids"
    let r ← b.create_chat_workspace uid nm desc model temp mt idx
    .ok (st, [⟨"Chat workspace created: " ++ r⟩])
  else if name = "update-chat-workspace" then do
    let uid ← argsSub arguments "uid"
    let nm ← argsGet arguments "name"
    let desc ← argsGet arguments "description"
    let model ← argsGet arguments "model"
    let temp ← argsGet arguments "temperature"
    let mt ← argsGet arguments "maxTokens"
    let idx ← argsGet arguments "indexUids"
    let r ← b.update_chat_workspace uid nm desc model temp mt idx
    .ok (st, [⟨"Chat workspace updated: " ++ r⟩])
  else if name = "list-chat-workspaces" then do
    let lim ← argsGet arguments "limit"
    let off ← argsGet arguments "offset"
    let r ← b.list_chat_workspaces lim off
    .ok (st, [⟨"Chat workspaces: " ++ r⟩])
  else if name = "get-chat-workspace" then do
    let uid ← argsSub arguments "uid"
    let r ← b.get_chat_workspace uid
    .ok (st, [⟨"Chat workspace: " ++ r⟩])
  else if name = "delete-chat-workspace" then do
    let uid ← argsSub arguments "uid"
    let r ← b.delete_chat_workspace uid
    .ok (st, [⟨"Chat workspace deleted: " ++ r⟩])
  else
    .error ("Unknown tool: " ++ name)

/-- The tool-invocation entry point, server.py lines 536-919: run the branch
chain and convert any escaping exception into the uniform error envelope,
leaving the server state as the branch left it. -/
def handle_call_tool (b : Backend) (st : MeilisearchMCPServer) (name : String)
    (arguments : Option ArgBag) : MeilisearchMCPServer × Envelope :=
  match dispatchTool b st name arguments with
  | .ok r => r
  | .error e => (st, [⟨"Error: " ++ e⟩])

/-- The names of the tools in the catalog returned by handle_list_tools,
server.py lines 68-533, in declaration order. The input schemas attached to
each descriptor play no part in any claim and are not modelled. -/
def handle_list_tools : List String :=
  ["get-connection-settings", "update-connection-settings", "health-check",
   "get-version", "get-stats", "create-index", "list-indexes", "delete-index",
   "get-documents", "add-documents", "get-settings", "update-settings",
   "search", "get-task", "get-tasks", "cancel-tasks", "get-keys",
   "create-key", "delete-key", "get-health-status", "get-index-metrics",
   "get-system-info", "chat-completion", "create-chat-workspace",
   "update-chat-workspace", "list-chat-workspaces", "get-chat-workspace",
   "delete-chat-workspace"]

/-- A sample backend whose every operation succeeds with a fixed rendering,
used to evaluate the gateway at concrete inputs. -/
def okBackend : Backend where
  create_index := fun _ _ => .ok "r"
  get_indexes := .ok "r"
  delete_index := fun _ => .ok "r"
  get_documents := fun _ _ _ => .ok "r"
  add_documents := fun _ _ _ => .ok "r"
  health_check := .ok true
  get_version := .ok "r"
  get_stats := .ok "r"
  get_settings := fun _ => .ok "r"
  update_settings := fun _ _ => .ok "r"
  search := fun _ _ _ _ _ _ => .ok "r"
  get_task := fun _ => .ok "r"
  get_tasks := fun _ => .ok "r"
  cancel_tasks := fun _ => .ok "r"
  get_keys := fun _ => .ok "r"
  create_key := fun _ _ _ _ => .ok "r"
  delete_key := fun _ => .ok "r"
  get_health_status := .ok "r"
  get_index_metrics := fun _ => .ok "r"
  get_system_information := .ok "r"
  chat_completion_stream := fun _ _ _ _ _ _ => .ok ["Hello", " world"]
  chat_completion := fun _ _ _ _ _ _ => .ok "r"
  create_chat_workspace := fun _ _ _ _ _ _ _ => .ok "r"
  update_chat_workspace := fun _ _ _ _ _ _ _ => .ok "r"
  list_chat_workspaces := fun _ _ => .ok "r"
  get_chat_workspace := fun _ => .ok "r"
  delete_chat_workspace := fun _ => .ok "r"

/-- A sample backend whose every operation raises with a fixed message, used
to exercise the error conversion at concrete inputs. -/
def errBackend : Backend where
  create_index := fun _ _ => .error "boom"
  get_indexes := .error "boom"
  delete_index := fun _ => .error "boom"
  get_documents := fun _ _ _ => .error "boom"
  add_documents := fun _ _ _ => .error "boom"
  health_check := .error "boom"
  get_version := .error "boom"
  get_stats := .error "boom"
  get_settings := fun _ => .error "boom"
  update_settings := fun _ _ => .error "boom"
  search := fun _ _ _ _ _ _ => .error "boom"
  get_task := fun _ => .error "boom"
  get_tasks := fun _ => .error "boom"
  cancel_tasks := fun _ => .error "boom"
  get_keys := fun _ => .error "boom"
  create_key := fun _ _ _ _ => .error "boom"
  delete_key := fun _ => .error "boom"
  get_health_status := .error "boom"
  get_index_metrics := fun _ => .error "boom"
  get_system_information := .error "boom"
  chat_completion_stream := fun _ _ _ _ _ _ => .error "boom"
  chat_completion := fun _ _ _ _ _ _ => .error "boom"
  create_chat_workspace := fun _ _ _ _ _ _ _ => .error "boom"
  update_chat_workspace := fun _ _ _ _ _ _ _ => .error "boom"
  list_chat_workspaces := fun _ _ => .error "boom"
  get_chat_workspace := fun _ => .error "boom"
  delete_chat_workspace := fun _ => .error "boom"

/-- The state a freshly constructed server holds under the default
configuration, server.py lines 27-49. -/
def initState : MeilisearchMCPServer :=
  ⟨Json.str "http://localhost:7700", none, Json.str "http://localhost:7700", none⟩

/-- The step a chunk contributes when no exception occurs: yield the value at
the content path when present and truthy, otherwise nothing. -/
def stepOfContent (c : Json) : StepOut :=
  match contentAt c with
  | some v => .yieldFrag v
  | none => .skip


/-- The two-fragment example stream of the spec. -/
def helloLines : List String :=
  ["data: \x7b\"choices\":[\x7b\"delta\":\x7b\"content\":\"Hello\"\x7d\x7d]\x7d",
   "data: \x7b\"choices\":[\x7b\"delta\":\x7b\"content\":\" world\"\x7d\x7d]\x7d",
   "data: [DONE]"]

/-- A stream whose first payload parses but is structurally non-conformant,
followed by a valid fragment line. -/
def poisonLines : List String :=
  ["data: \x7b\"choices\":[1]\x7d",
   "data: \x7b\"choices\":[\x7b\"delta\":\x7b\"content\":\"B\"\x7d\x7d]\x7d",
   "data: [DONE]"]

/-- The malformed-middle-line example stream of the spec. -/
def abLines : List String :=
  ["data: \x7b\"choices\":[\x7b\"delta\":\x7b\"content\":\"A\"\x7d\x7d]\x7d",
   "data: not-json",
   "data: \x7b\"choices\":[\x7b\"delta\":\x7b\"content\":\"B\"\x7d\x7d]\x7d",
   "data: [DONE]"]

example : parseJson "null" = some Json.null := rfl

example : parseJson " [1, 2] " = some (Json.arr [Json.num 1, Json.num 2]) := rfl

example : parseJson "\"ab\"" = some (Json.str "ab") := rfl

example : parseJson "not-json" = none := rfl

example :
    parseJson "\x7b\"choices\":[\x7b\"delta\":\x7b\"content\":\"Hello\"\x7d\x7d]\x7d"
      = some (Json.obj [("choices",
          Json.arr [Json.obj [("delta", Json.obj [("content", Json.str "Hello")])]])]) := rfl

example :
    chat_completion_stream
      ["data: \x7b\"choices\":[\x7b\"delta\":\x7b\"content\":\"Hello\"\x7d\x7d]\x7d",
       "data: \x7b\"choices\":[\x7b\"delta\":\x7b\"content\":\" world\"\x7d\x7d]\x7d",
       "data: [DONE]"]
      = ⟨[Json.str "Hello", Json.str " world"], none⟩ := rfl

example :
    chat_completion_stream ["data: \x7b\"choices\":[1]\x7d"]
      = ⟨[], some "\x27int\x27 object has no attribute \x27get\x27"⟩ := rfl

example :
    chat_completion_stream
      ["data: \x7b\"choices\":[\x7b\"delta\":\x7b\"content\":\"A\"\x7d\x7d]\x7d",
       "data: not-json",
       "data: \x7b\"choices\":[\x7b\"delta\":\x7b\"content\":\"B\"\x7d\x7d]\x7d",
       "data: [DONE]"]
      = ⟨[Json.str "A", Json.str "B"], none⟩ := rfl

example :
    handle_call_tool okBackend initState "get-version" none
      = (initState, [⟨"Version info: r"⟩]) := rfl

example :
    handle_call_tool errBackend initState "get-version" none
      = (initState, [⟨"Error: boom"⟩]) := rfl

example :
    handle_call_tool okBackend initState "nonexistent-tool" none
      = (initState, [⟨"Error: Unknown tool: nonexistent-tool"⟩]) := rfl

example :
    handle_call_tool okBackend initState "get-documents"
        (some [("indexUid", Json.str "movies")])
      = (initState, [⟨"Documents:\nr"⟩]) := rfl

theorem objGet_nil (k : String) : objGet [] k = none := rfl

theorem wellFormed_processChunk (c : Json) (hw : wellFormedChunk c = true) :
    processChunk c = stepOfContent c := by
  match c with
  | .null => simp [wellFormedChunk] at hw
  | .bool b => simp [wellFormedChunk] at hw
  | .num n => simp [wellFormedChunk] at hw
  | .str s =>
    rw [wellFormedChunk] at hw
    rcases hsub : substrB "choices" s with _ | _
    · simp [processChunk, stepOfContent, contentAt, pyContains, hsub]
    · rw [hsub] at hw; simp at hw
  | .arr xs =>
    rw [wellFormedChunk] at hw
    rcases hany : (xs.any fun x => match x with | .str s => s == "choices" | _ => false)
        with _ | _
    · simp [processChunk, stepOfContent, contentAt, pyContains, hany]
    · rw [hany] at hw; simp at hw
  | .obj fs =>
    rw [wellFormedChunk] at hw
    rcases hv : objGet fs "choices" with _ | v
    · simp [processChunk, stepOfContent, contentAt, pyContains, pySubscript, hv]
    · rw [hv] at hw
      match v with
      | .null =>
        simp [processChunk, stepOfContent, contentAt, pyContains, pySubscript,
          hv, truthy]
      | .bool bb =>
        rcases bb with _ | _
        · simp [processChunk, stepOfContent, contentAt, pyContains, pySubscript,
            hv, truthy]
        · simp [truthy] at hw
      | .num n =>
        by_cases hn : n = 0
        · subst hn
          simp [processChunk, stepOfContent, contentAt, pyContains, pySubscript,
            hv, truthy]
        · simp [truthy, hn] at hw
      | .str s2 =>
        by_cases hs : s2 = ""
        · subst hs
          simp [processChunk, stepOfContent, contentAt, pyContains, pySubscript,
            hv, truthy]
        · simp [truthy, hs] at hw
      | .arr [] =>
        simp [processChunk, stepOfContent, contentAt, pyContains, pySubscript,
          hv, truthy]
      | .obj [] =>
        simp [processChunk, stepOfContent, contentAt, pyContains, pySubscript,
          hv, truthy]
      | .obj (p :: ps) =>
        simp [truthy] at hw
      | .arr (c0 :: cs) =>
        simp [truthy] at hw
        match c0 with
        | .null => simp at hw
        | .bool _ => simp at hw
        | .num _ => simp at hw
        | .str _ => simp at hw
        | .arr _ => simp at hw
        | .obj d =>
          have hw2 : (match objGet d "delta" with
              | none => true
              | some (.obj _) => true
              | some _ => false) = true := hw
          rcases hd : objGet d "delta" with _ | dv
          · simp [processChunk, stepOfContent, contentAt, pyContains, pySubscript,
              hv, hd, truthy, pyIndexZero, pyDictGet, objGet_nil]
          · rw [hd] at hw2
            match dv with
            | .obj dd =>
              rcases hc : objGet dd "content" with _ | w
              · simp [processChunk, stepOfContent, contentAt, pyContains,
                  pySubscript, hv, hd, hc, truthy, pyIndexZero, pyDictGet]
              · have htv : truthy (Json.arr (Json.obj d :: cs)) = true := by
                  simp [truthy]
                by_cases htw : truthy w
                · simp [processChunk, stepOfContent, contentAt, pyContains,
                    pySubscript, hv, hd, hc, htv, pyIndexZero, pyDictGet, htw]
                · simp [processChunk, stepOfContent, contentAt, pyContains,
                    pySubscript, hv, hd, hc, htv, pyIndexZero, pyDictGet, htw]
            | .null => simp at hw2
            | .bool _ => simp at hw2
            | .num _ => simp at hw2
            | .str _ => simp at hw2
            | .arr _ => simp at hw2

theorem illFormed_processChunk (c : Json) (hw : wellFormedChunk c = false) :
    ∃ m, processChunk c = .raiseExc m := by
  match c with
  | .null => exact ⟨_, rfl⟩
  | .bool b => exact ⟨_, rfl⟩
  | .num n => exact ⟨_, rfl⟩
  | .str s =>
    rw [wellFormedChunk] at hw
    rcases hsub : substrB "choices" s with _ | _
    · rw [hsub] at hw; simp at hw
    · exact ⟨"string indices must be integers",
        by simp [processChunk, pyContains, pySubscript, hsub]⟩
  | .arr xs =>
    rw [wellFormedChunk] at hw
    rcases hany : (xs.any fun x => match x with | .str s => s == "choices" | _ => false)
        with _ | _
    · rw [hany] at hw; simp at hw
    · exact ⟨"list indices must be integers or slices, not str",
        by simp [processChunk, pyContains, pySubscript, hany]⟩
  | .obj fs =>
    rw [wellFormedChunk] at hw
    rcases hv : objGet fs "choices" with _ | v
    · rw [hv] at hw; simp at hw
    · rw [hv] at hw
      match v with
      | .null => simp [truthy] at hw
      | .bool bb =>
        rcases bb with _ | _
        · simp [truthy] at hw
        · exact ⟨"\x27bool\x27 object is not subscriptable",
            by simp [processChunk, pyContains, pySubscript, hv, truthy, pyIndexZero]⟩
      | .num n =>
        by_cases hn : n = 0
        · subst hn; simp [truthy] at hw
        · exact ⟨"\x27int\x27 object is not subscriptable",
            by simp [processChunk, pyContains, pySubscript, hv, truthy, hn,
              pyIndexZero]⟩
      | .str s2 =>
        by_cases hs : s2 = ""
        · subst hs; simp [truthy] at hw
        · rcases hcs : s2.data with _ | ⟨ch, chs⟩
          · exact ⟨"string index out of range",
              by simp [processChunk, pyContains, pySubscript, hv, truthy, hs,
                pyIndexZero, hcs]⟩
          · exact ⟨"\x27str\x27 object has no attribute \x27get\x27",
              by simp [processChunk, pyContains, pySubscript, hv, truthy, hs,
                pyIndexZero, hcs, pyDictGet]⟩
      | .arr [] => simp [truthy] at hw
      | .obj [] => simp [truthy] at hw
      | .obj (p :: ps) =>
        exact ⟨"0",
          by simp [processChunk, pyContains, pySubscript, hv, truthy, pyIndexZero]⟩
      | .arr (c0 :: cs) =>
        simp [truthy] at hw
        match c0 with
        | .null => exact ⟨"\x27NoneType\x27 object has no attribute \x27get\x27",
            by simp [processChunk, pyContains, pySubscript, hv, truthy,
              pyIndexZero, pyDictGet]⟩
        | .bool _ => exact ⟨"\x27bool\x27 object has no attribute \x27get\x27",
            by simp [processChunk, pyContains, pySubscript, hv, truthy,
              pyIndexZero, pyDictGet]⟩
        | .num _ => exact ⟨"\x27int\x27 object has no attribute \x27get\x27",
            by simp [processChunk, pyContains, pySubscript, hv, truthy,
              pyIndexZero, pyDictGet]⟩
        | .str _ => exact ⟨"\x27str\x27 object has no attribute \x27get\x27",
            by simp [processChunk, pyContains, pySubscript, hv, truthy,
              pyIndexZero, pyDictGet]⟩
        | .arr _ => exact ⟨"\x27list\x27 object has no attribute \x27get\x27",
            by simp [processChunk, pyContains, pySubscript, hv, truthy,
              pyIndexZero, pyDictGet]⟩
        | .obj d =>
          have hw2 : (match objGet d "delta" with
              | none => true
              | some (.obj _) => true
              | some _ => false) = false := hw
          rcases hd : objGet d "delta" with _ | dv
          · rw [hd] at hw2; simp at hw2
          · rw [hd] at hw2
            match dv with
            | .obj dd => simp at hw2
            | .null => exact ⟨"\x27NoneType\x27 object has no attribute \x27get\x27",
                by simp [processChunk, pyContains, pySubscript, hv, hd, truthy,
                  pyIndexZero, pyDictGet]⟩
            | .bool _ => exact ⟨"\x27bool\x27 object has no attribute \x27get\x27",
                by simp [processChunk, pyContains, pySubscript, hv, hd, truthy,
                  pyIndexZero, pyDictGet]⟩
            | .num _ => exact ⟨"\x27int\x27 object has no attribute \x27get\x27",
                by simp [processChunk, pyContains, pySubscript, hv, hd, truthy,
                  pyIndexZero, pyDictGet]⟩
            | .str _ => exact ⟨"\x27str\x27 object has no attribute \x27get\x27",
                by simp [processChunk, pyContains, pySubscript, hv, hd, truthy,
                  pyIndexZero, pyDictGet]⟩
            | .arr _ => exact ⟨"\x27list\x27 object has no attribute \x27get\x27",
                by simp [processChunk, pyContains, pySubscript, hv, hd, truthy,
                  pyIndexZero, pyDictGet]⟩

theorem decode_ok_fragments (ls : List String)
    (h : (chat_completion_stream ls).exc = none) :
    (chat_completion_stream ls).fragments = specFragments ls := by
  induction ls with
  | nil => rfl
  | cons l ls ih =>
    simp only [chat_completion_stream, specFragments] at h ⊢
    rcases hd : dataPayload l with _ | d
    · simp only [hd] at h ⊢; exact ih h
    · simp only [hd] at h ⊢
      by_cases hdone : d = "[DONE]"
      · simp only [if_pos hdone]
      · simp only [if_neg hdone] at h ⊢
        rcases hp : parseJson d with _ | chunk
        · simp only [hp] at h ⊢; exact ih h
        · simp only [hp] at h ⊢
          rcases hwf : wellFormedChunk chunk with _ | _
          · obtain ⟨m, hm⟩ := illFormed_processChunk chunk hwf
            simp only [hm] at h
            simp at h
          · have hs := wellFormed_processChunk chunk hwf
            simp only [stepOfContent] at hs
            rcases hc : contentAt chunk with _ | v
            · simp only [hc] at hs
              simp only [hs] at h ⊢
              exact ih h
            · simp only [hc] at hs
              simp only [hs] at h ⊢
              have h2 : (chat_completion_stream ls).exc = none := h
              show v :: (chat_completion_stream ls).fragments
                = v :: specFragments ls
              rw [ih h2]

theorem decode_safe_no_exc (ls : List String)
    (h : ∀ l ∈ ls, lineSafe l = true) :
    (chat_completion_stream ls).exc = none := by
  induction ls with
  | nil => rfl
  | cons l ls ih =>
    have hl : lineSafe l = true := h l (List.mem_cons_self l ls)
    have hrest : ∀ x ∈ ls, lineSafe x = true :=
      fun x hx => h x (List.mem_cons_of_mem l hx)
    simp only [lineSafe] at hl
    simp only [chat_completion_stream]
    rcases hd : dataPayload l with _ | d
    · simp only [hd]; exact ih hrest
    · simp only [hd] at hl ⊢
      by_cases hdone : d = "[DONE]"
      · simp only [if_pos hdone]
      · simp only [if_neg hdone] at hl ⊢
        rcases hp : parseJson d with _ | chunk
        · simp only [hp]; exact ih hrest
        · simp only [hp] at hl ⊢
          have hs := wellFormed_processChunk chunk hl
          simp only [stepOfContent] at hs
          rcases hc : contentAt chunk with _ | v
          · simp only [hc] at hs
            simp only [hs]
            exact ih hrest
          · simp only [hc] at hs
            simp only [hs]
            show (chat_completion_stream ls).exc = none
            exact ih hrest

theorem listPrefixB_refl (l : List Char) : listPrefixB l l = true := by
  induction l with
  | nil => rfl
  | cons c cs ih => simp [listPrefixB, ih]

theorem listSubstrB_append_self (p s : List Char) : listSubstrB s (p ++ s) = true := by
  induction p with
  | nil =>
    cases s with
    | nil => rfl
    | cons c cs => simp [listSubstrB, listPrefixB_refl]
  | cons c p ih => simp [listSubstrB, ih]

theorem substrB_append_self (p s : String) : substrB s (p ++ s) = true := by
  show listSubstrB s.data (p ++ s).data = true
  rw [String.data_append]
  exact listSubstrB_append_self p.data s.data

/-- C1: for every tool name and argument bag, when the branch chain or the
bound backend operation raises an exception, handle_call_tool does not
propagate it and instead returns an envelope of a single text block whose
text is the literal Error prefix followed by the exception message. -/
theorem C1_backend_error_envelope (b : Backend) (st : MeilisearchMCPServer)
    (name : String) (args : Option ArgBag) (m : String)
    (h : dispatchTool b st name args = .error m) :
    handle_call_tool b st name args = (st, [⟨"Error: " ++ m⟩]) := by
  simp [handle_call_tool, h]

/-- Witness for C1 at a backend whose get-version call raises with message
boom. -/
theorem C1_backend_error_envelope_witness :
    dispatchTool errBackend initState "get-version" none = .error "boom" ∧
    handle_call_tool errBackend initState "get-version" none
      = (initState, [⟨"Error: boom"⟩]) :=
  ⟨rfl, C1_backend_error_envelope errBackend initState "get-version" none "boom" rfl⟩

/-- Counterexample to C2 as stated: for an unregistered name the envelope
text carries the Error prefix, so it is not exactly the bare unknown-tool
message. -/
theorem C2_counterexample :
    handle_call_tool okBackend initState "nonexistent-tool" none
      = (initState, [⟨"Error: Unknown tool: nonexistent-tool"⟩]) ∧
    (handle_call_tool okBackend initState "nonexistent-tool" none).2
      ≠ [⟨"Unknown tool: nonexistent-tool"⟩] := by
  refine ⟨rfl, ?_⟩
  decide

/-- C2 (amended): for every tool name not present in the registry and every
argument bag, handle_call_tool returns an envelope of a single text block
whose text is exactly the Error prefix followed by Unknown tool and the
name. -/
theorem C2_unknown_tool_envelope (b : Backend) (st : MeilisearchMCPServer)
    (args : Option ArgBag) (name : String) (h : name ∉ handle_list_tools) :
    handle_call_tool b st name args
      = (st, [⟨"Error: Unknown tool: " ++ name⟩]) := by
  simp only [handle_list_tools, List.mem_cons, List.not_mem_nil, or_false,
    not_or] at h
  obtain ⟨h1, h2, h3, h4, h5, h6, h7, h8, h9, h10, h11, h12, h13, h14, h15, h16,
    h17, h18, h19, h20, h21, h22, h23, h24, h25, h26, h27, h28⟩ := h
  simp [handle_call_tool, dispatchTool, h1, h2, h3, h4, h5, h6, h7, h8, h9, h10,
    h11, h12, h13, h14, h15, h16, h17, h18, h19, h20, h21, h22, h23, h24, h25,
    h26, h27, h28]
  rw [show ("Error: Unknown tool: " : String) = "Error: " ++ "Unknown tool: " from rfl,
    String.append_assoc]

/-- Witness for the amended C2 at a concrete unregistered name. -/
theorem C2_unknown_tool_envelope_witness :
    "frobnicate" ∉ handle_list_tools ∧
    handle_call_tool okBackend initState "frobnicate" none
      = (initState, [⟨"Error: Unknown tool: frobnicate"⟩]) :=
  ⟨by decide, C2_unknown_tool_envelope okBackend initState none "frobnicate" (by decide)⟩

/-- Counterexample to C3 as stated: on a stream whose first payload parses
but has a number as the first choices element, the content payload values up
to the sentinel are exactly the B fragment, yet the decoder yields nothing
and an AttributeError escapes it. -/
theorem C3_counterexample :
    specFragments poisonLines = [Json.str "B"] ∧
    (chat_completion_stream poisonLines).fragments = [] ∧
    (chat_completion_stream poisonLines).exc
      = some "\x27int\x27 object has no attribute \x27get\x27" :=
  ⟨rfl, rfl, rfl⟩

/-- C3 (amended): on every stream the decoder finishes without an exception,
it yields exactly the non-empty content payload values of the data lines, in
input order, cut off at the first sentinel payload, which is not yielded; in
particular the two-fragment example decodes and joins to exactly the
Hello world text. -/
theorem C3_stream_decode :
    (∀ ls, (chat_completion_stream ls).exc = none →
      (chat_completion_stream ls).fragments = specFragments ls) ∧
    chat_completion_stream helloLines
      = ⟨[Json.str "Hello", Json.str " world"], none⟩ ∧
    joinedText (chat_completion_stream helloLines).fragments = some "Hello world" :=
  ⟨decode_ok_fragments, rfl, rfl⟩

/-- Witness for the amended C3 at the two-fragment example stream. -/
theorem C3_stream_decode_witness :
    (chat_completion_stream helloLines).exc = none ∧
    (chat_completion_stream helloLines).fragments = specFragments helloLines :=
  ⟨rfl, C3_stream_decode.1 helloLines rfl⟩

/-- Counterexample to C4 as stated: a single line whose payload parses to an
object whose first choices element is a number makes an AttributeError
escape the decoder. -/
theorem C4_counterexample :
    (chat_completion_stream ["data: \x7b\"choices\":[1]\x7d"]).exc
      = some "\x27int\x27 object has no attribute \x27get\x27" := rfl

/-- C4 (amended): the decoder raises no exception on any stream all of whose
lines are structurally conformant, which includes every non-data line, the
sentinel, and every payload that fails to parse; only successfully parsed
payloads of non-conformant shape can raise. -/
theorem C4_decoder_no_raise (ls : List String)
    (h : ∀ l ∈ ls, lineSafe l = true) :
    (chat_completion_stream ls).exc = none :=
  decode_safe_no_exc ls h

/-- Witness for the amended C4 at the two-fragment example stream. -/
theorem C4_decoder_no_raise_witness :
    (∀ l ∈ helloLines, lineSafe l = true) ∧
    (chat_completion_stream helloLines).exc = none :=
  ⟨by decide, C4_decoder_no_raise helloLines (by decide)⟩

/-- C5: a data line whose payload is not the sentinel and fails to parse is
skipped, leaving the decode of the remaining lines unchanged; the example
stream with a malformed middle line joins to exactly AB. -/
theorem C5_malformed_line_skipped :
    (∀ l d ls, dataPayload l = some d → parseJson d = none → d ≠ "[DONE]" →
      chat_completion_stream (l :: ls) = chat_completion_stream ls) ∧
    chat_completion_stream abLines = ⟨[Json.str "A", Json.str "B"], none⟩ ∧
    joinedText (chat_completion_stream abLines).fragments = some "AB" := by
  refine ⟨?_, rfl, rfl⟩
  intro l d ls h1 h2 h3
  simp only [chat_completion_stream, h1, if_neg h3, h2]

/-- Witness for C5 at the concrete malformed line. -/
theorem C5_malformed_line_skipped_witness :
    dataPayload "data: not-json" = some "not-json" ∧
    parseJson "not-json" = none ∧
    chat_completion_stream ["data: not-json"] = chat_completion_stream [] :=
  ⟨rfl, rfl,
   C5_malformed_line_skipped.1 "data: not-json" "not-json" [] rfl rfl (by decide)⟩

/-- C6: for every get-documents invocation whose bag holds an index uid, the
backend get_documents call receives the offset and limit values of the bag
with zero and twenty substituted for the omitted ones, supplied values
passing through unchanged. -/
theorem C6_get_documents_defaults (b : Backend) (st : MeilisearchMCPServer)
    (bag : ArgBag) (uid : Json) (h : objGet bag "indexUid" = some uid) :
    dispatchTool b st "get-documents" (some bag)
      = (b.get_documents uid (bagGetD bag "offset" (Json.num 0))
          (bagGetD bag "limit" (Json.num 20))).map
            (fun r => (st, [⟨"Documents:\n" ++ r⟩])) ∧
    (objGet bag "offset" = none → bagGetD bag "offset" (Json.num 0) = Json.num 0) ∧
    (objGet bag "limit" = none → bagGetD bag "limit" (Json.num 20) = Json.num 20) ∧
    (∀ v, objGet bag "offset" = some v → bagGetD bag "offset" (Json.num 0) = v) ∧
    (∀ v, objGet bag "limit" = some v → bagGetD bag "limit" (Json.num 20) = v) := by
  refine ⟨?_, ?_, ?_, ?_, ?_⟩
  · cases hx : b.get_documents uid (bagGetD bag "offset" (Json.num 0))
        (bagGetD bag "limit" (Json.num 20)) with
    | ok r =>
      simp [dispatchTool, argsSub, argsGetD, h, hx, Except.map, Bind.bind, Except.bind]
    | error e =>
      simp [dispatchTool, argsSub, argsGetD, h, hx, Except.map, Bind.bind, Except.bind]
  · intro hnone; simp [bagGetD, hnone]
  · intro hnone; simp [bagGetD, hnone]
  · intro v hv; simp [bagGetD, hv]
  · intro v hv; simp [bagGetD, hv]

/-- Witness for C6 at a bag holding only the index uid, where the backend
call receives offset zero and limit twenty. -/
theorem C6_get_documents_defaults_witness :
    objGet [("indexUid", Json.str "movies")] "indexUid" = some (Json.str "movies") ∧
    dispatchTool okBackend initState "get-documents"
        (some [("indexUid", Json.str "movies")])
      = (okBackend.get_documents (Json.str "movies")
          (bagGetD [("indexUid", Json.str "movies")] "offset" (Json.num 0))
          (bagGetD [("indexUid", Json.str "movies")] "limit" (Json.num 20))).map
            (fun r => (initState, [⟨"Documents:\n" ++ r⟩])) ∧
    bagGetD [("indexUid", Json.str "movies")] "offset" (Json.num 0) = Json.num 0 ∧
    bagGetD [("indexUid", Json.str "movies")] "limit" (Json.num 20) = Json.num 20 :=
  ⟨rfl,
   (C6_get_documents_defaults okBackend initState [("indexUid", Json.str "movies")]
     (Json.str "movies") rfl).1,
   (C6_get_documents_defaults okBackend initState [("indexUid", Json.str "movies")]
     (Json.str "movies") rfl).2.1 rfl,
   (C6_get_documents_defaults okBackend initState [("indexUid", Json.str "movies")]
     (Json.str "movies") rfl).2.2.1 rfl⟩

/-- Counterexample to C7 as stated: a bag whose only url entry is the empty
string leaves the stored URL at its prior value instead of making it that
value, since the update is guarded by Python truthiness. -/
theorem C7_counterexample :
    (handle_call_tool okBackend initState "update-connection-settings"
        (some [("url", Json.str "")])).1.url = Json.str "http://localhost:7700" ∧
    Json.str "http://localhost:7700" ≠ Json.str "" := by
  refine ⟨rfl, ?_⟩
  intro hcon
  injection hcon with hs
  exact absurd hs (by decide)

/-- C7 (amended): a bag holding only a non-empty url string makes the stored
URL that value and keeps the stored credential, a bag holding only a
non-empty credential string changes only the credential, in both cases the
client is rebuilt from the post-update state, and the confirmation text
contains the new URL. -/
theorem C7_partial_update (b : Backend) (st : MeilisearchMCPServer) (u k : String)
    (hu : u ≠ "") (hk : k ≠ "") :
    handle_call_tool b st "update-connection-settings" (some [("url", Json.str u)])
      = ({ url := Json.str u, api_key := st.api_key, client_url := Json.str u,
            client_api_key := st.api_key },
         [⟨"Successfully updated connection settings to URL: " ++ u⟩]) ∧
    handle_call_tool b st "update-connection-settings" (some [("api_key", Json.str k)])
      = ({ url := st.url, api_key := some (Json.str k), client_url := st.url,
            client_api_key := some (Json.str k) },
         [⟨"Successfully updated connection settings to URL: " ++ pyStr st.url⟩]) ∧
    substrB u ("Successfully updated connection settings to URL: " ++ u) = true := by
  refine ⟨?_, ?_, substrB_append_self _ _⟩
  · have h1 : argsGet (some [("url", Json.str u)]) "url" = .ok (some (Json.str u)) := rfl
    have h2 : argsGet (some [("url", Json.str u)]) "api_key" = .ok none := rfl
    simp [handle_call_tool, dispatchTool, h1, h2, update_connection, truthy, bne,
      hu, pyStr, Bind.bind, Except.bind]
  · have h1 : argsGet (some [("api_key", Json.str k)]) "url" = .ok none := rfl
    have h2 : argsGet (some [("api_key", Json.str k)]) "api_key"
        = .ok (some (Json.str k)) := rfl
    simp [handle_call_tool, dispatchTool, h1, h2, update_connection, truthy, bne,
      hk, Bind.bind, Except.bind]

/-- Witness for the amended C7 at concrete URL and credential values. -/
theorem C7_partial_update_witness :
    ("http://x:9" : String) ≠ "" ∧
    handle_call_tool okBackend initState "update-connection-settings"
        (some [("url", Json.str "http://x:9")])
      = ({ url := Json.str "http://x:9", api_key := none,
            client_url := Json.str "http://x:9", client_api_key := none },
         [⟨"Successfully updated connection settings to URL: http://x:9"⟩]) :=
  ⟨by decide,
   (C7_partial_update okBackend initState "http://x:9" "k"
     (by decide) (by decide)).1⟩

/-- C8: the get-tasks branch passes the backend exactly the sub-bag of keys
in the fixed allow-list, drops every other key silently, and treats an
absent bag as the empty bag. -/
theorem C8_get_tasks_allowlist (b : Backend) (st : MeilisearchMCPServer)
    (args : Option ArgBag) :
    dispatchTool b st "get-tasks" args
      = (b.get_tasks (filtered_args args)).map
          (fun r => (st, [⟨"Tasks: " ++ r⟩])) ∧
    (∀ bag, filtered_args (some bag)
      = bag.filter (fun p => valid_params.contains p.1)) ∧
    filtered_args none = [] ∧
    (∀ bag k v, valid_params.contains k = false →
      filtered_args (some ((k, v) :: bag)) = filtered_args (some bag)) := by
  refine ⟨?_, ?_, rfl, ?_⟩
  · cases hx : b.get_tasks (filtered_args args) with
    | ok r => simp [dispatchTool, hx, Except.map, Bind.bind, Except.bind]
    | error e => simp [dispatchTool, hx, Except.map, Bind.bind, Except.bind]
  · intro bag
    cases bag with
    | nil => rfl
    | cons p ps => simp [filtered_args]
  · intro bag k v hk
    have hk2 : k ∉ valid_params := by simpa using hk
    cases bag with
    | nil => simp [filtered_args, hk2]
    | cons q qs => simp [filtered_args, hk2]

/-- Witness for C8 at a bag holding one allowed and one unknown key. -/
theorem C8_get_tasks_allowlist_witness :
    valid_params.contains "bogus" = false ∧
    filtered_args (some [("bogus", Json.str "x"), ("limit", Json.num 5)])
      = filtered_args (some [("limit", Json.num 5)]) ∧
    dispatchTool okBackend initState "get-tasks"
        (some [("bogus", Json.str "x"), ("limit", Json.num 5)])
      = .ok (initState, [⟨"Tasks: r"⟩]) :=
  ⟨by decide,
   (C8_get_tasks_allowlist okBackend initState none).2.2.2
     [("limit", Json.num 5)] "bogus" (Json.str "x") (by decide),
   rfl⟩

/-- Counterexample to C9 as stated: the only catalog tools whose name
mentions documents are the get and add tools, so there is no document
update or delete tool. -/
theorem C9_counterexample :
    handle_list_tools.filter (fun n => substrB "document" n)
      = ["get-documents", "add-documents"] := by decide

/-- C9 (amended): the catalog holds twenty-eight tools, including the
document get and add tools, but no document update or delete tool. -/
theorem C9_catalog :
    "get-documents" ∈ handle_list_tools ∧
    "add-documents" ∈ handle_list_tools ∧
    "update-documents" ∉ handle_list_tools ∧
    "delete-document" ∉ handle_list_tools ∧
    "delete-documents" ∉ handle_list_tools ∧
    "delete-all-documents" ∉ handle_list_tools ∧
    handle_list_tools.length = 28 := by decide

/-- C10: the connection-settings reply is identical for any two configured
non-empty credential values, shows the fixed eight-asterisk mask in place of
the credential, and reports Not set when no credential is stored; the reply
depends only on whether a credential is set. -/
theorem C10_credential_masking (b : Backend) (st : MeilisearchMCPServer)
    (args : Option ArgBag) (k1 k2 : String) (h1 : k1 ≠ "") (h2 : k2 ≠ "") :
    (handle_call_tool b { st with api_key := some (Json.str k1) }
        "get-connection-settings" args).2
      = (handle_call_tool b { st with api_key := some (Json.str k2) }
          "get-connection-settings" args).2 ∧
    (handle_call_tool b { st with api_key := some (Json.str k1) }
        "get-connection-settings" args).2
      = [⟨"Current connection settings:\nURL: " ++ pyStr st.url
          ++ "\nAPI Key: ********"⟩] ∧
    (handle_call_tool b { st with api_key := none }
        "get-connection-settings" args).2
      = [⟨"Current connection settings:\nURL: " ++ pyStr st.url
          ++ "\nAPI Key: Not set"⟩] := by
  simp [handle_call_tool, dispatchTool, maskedKey, optTruthy, truthy, bne, h1, h2]
  constructor
  · rw [String.append_assoc]; rfl
  · rw [String.append_assoc]; rfl

/-- Witness for C10 at two distinct concrete credentials. -/
theorem C10_credential_masking_witness :
    ("secret1" : String) ≠ "" ∧ ("secret2" : String) ≠ "" ∧
    (handle_call_tool okBackend
        { initState with api_key := some (Json.str "secret1") }
        "get-connection-settings" none).2
      = (handle_call_tool okBackend
          { initState with api_key := some (Json.str "secret2") }
          "get-connection-settings" none).2 :=
  ⟨by decide, by decide,
   (C10_credential_masking okBackend initState none "secret1" "secret2"
     (by decide) (by decide)).1⟩
